import Mathlib

/-!
Verification of the SuperOrchestrator pipeline
(`src/services/super_orchestrator cl.py`, class `SuperOrchestrator`).

The Python code is shallowly embedded as follows.

* Python values flowing through the pipeline (dicts, lists, strings,
  ints, floats, booleans, `None`) are modelled by the inductive `PyVal`.
  Python floats are modelled as rationals (`ℚ`); no claim here depends on
  float rounding.  Python dicts are association lists keyed by strings
  (every dict key in the source is a string literal); insertion replaces
  the first occurrence of the key, matching dict-update semantics.
* Fallible Python expressions are modelled in `Except String α`, the
  error string standing for `str(e)` of the raised exception.  Attribute
  and type errors raised by `.get`, `len(...)` and iteration on values of
  the wrong shape are modelled by `PyVal.pyGet`, `PyVal.pyLen`,
  `PyVal.pyIter`; the exact message text is abstract (never compared).
* The optional collaborators (`self.services` entries plus the module
  globals `enhanced_search_coordinator` and the `salvar_erro` stub) are
  modelled by the `Env` structure: `none` means the import failed /
  the service is absent, `some b` carries the collaborator's behaviour
  as a pure function into `Except String PyVal`.  The registered but
  never-consulted services (`ai_manager`, `content_extractor`) are
  omitted: no phase of this file reads them.  `datetime.now().isoformat()`
  is the `nowIso` field; `time.time()` values are explicit `ℚ` arguments.
* `salvar_etapa` / `salvar_erro` resolve to the no-op stubs defined when
  the module loads (the `services.auto_save_manager` module is not part
  of this repository), so they are not represented.
-/

inductive PyVal : Type where
  | str : String → PyVal
  | int : Int → PyVal
  | rat : ℚ → PyVal
  | bool : Bool → PyVal
  | none : PyVal
  | list : List PyVal → PyVal
  | dict : List (String × PyVal) → PyVal

namespace PyVal

/-- Python truthiness (`bool(v)`). -/
def truthy : PyVal → Bool
  | .none => false
  | .bool b => b
  | .int n => n != 0
  | .rat q => q != 0
  | .str s => !s.isEmpty
  | .list l => !l.isEmpty
  | .dict l => !l.isEmpty

end PyVal

/-- First-match association-list lookup (Python `dict` access order). -/
def alookup {α : Type} (k : String) : List (String × α) → Option α
  | [] => Option.none
  | (k', v) :: rest => if k' = k then some v else alookup k rest

/-- Association-list insertion replacing the first occurrence of the key
(Python `d[k] = v`). -/
def ainsert {α : Type} (l : List (String × α)) (k : String) (v : α) :
    List (String × α) :=
  match l with
  | [] => [(k, v)]
  | (k', v') :: rest =>
      if k' = k then (k, v) :: rest else (k', v') :: ainsert rest k v

/-- Update the first entry for a key in place, identity when the key is
absent (used only where the source guarantees presence). -/
def amodify {α : Type} (l : List (String × α)) (k : String) (f : α → α) :
    List (String × α) :=
  match l with
  | [] => []
  | (k', v') :: rest =>
      if k' = k then (k', f v') :: rest else (k', v') :: amodify rest k f

namespace PyVal

/-- Python `v.get(k)` (default `None`): raises `AttributeError` unless `v`
is a dict. -/
def pyGet (v : PyVal) (k : String) : Except String PyVal :=
  match v with
  | .dict l => .ok ((alookup k l).getD .none)
  | _ => .error ("AttributeError: get of non-dict value, key " ++ k)

/-- Python `v.get(k, d)`: raises `AttributeError` unless `v` is a dict. -/
def pyGetD (v : PyVal) (k : String) (d : PyVal) : Except String PyVal :=
  match v with
  | .dict l => .ok ((alookup k l).getD d)
  | _ => .error ("AttributeError: get of non-dict value, key " ++ k)

/-- Python `len(v)`: defined on strings, lists and dicts, `TypeError`
otherwise. -/
def pyLen : PyVal → Except String Int
  | .str s => .ok s.length
  | .list l => .ok l.length
  | .dict l => .ok l.length
  | _ => .error "TypeError: object has no len"

/-- Python iteration `for x in v`: lists yield elements, strings yield
one-character strings, dicts yield their keys; `TypeError` otherwise. -/
def pyIter : PyVal → Except String (List PyVal)
  | .list l => .ok l
  | .str s => .ok (s.toList.map (fun c => PyVal.str (String.singleton c)))
  | .dict l => .ok (l.map (fun kv => PyVal.str kv.1))
  | _ => .error "TypeError: value is not iterable"

/-- Python `v == 'lit'` for a string literal: `False` whenever `v` is not
a string. -/
def eqStr (v : PyVal) (s : String) : Bool :=
  match v with
  | .str s' => s' = s
  | _ => false

end PyVal

mutual

/-- Python `repr(v)`; string escaping inside `repr` is not modelled (no
claim inspects a repr of a string containing quotes). -/
def pyReprV : PyVal → String
  | .str s => "\x27" ++ s ++ "\x27"
  | .int n => toString n
  | .rat q => toString q
  | .bool b => if b then "True" else "False"
  | .none => "None"
  | .list l => "[" ++ pyReprList l ++ "]"
  | .dict l => "\x7b" ++ pyReprDict l ++ "\x7d"

def pyReprList : List PyVal → String
  | [] => ""
  | [v] => pyReprV v
  | v :: w :: rest => pyReprV v ++ ", " ++ pyReprList (w :: rest)

def pyReprDict : List (String × PyVal) → String
  | [] => ""
  | [(k, v)] => "\x27" ++ k ++ "\x27: " ++ pyReprV v
  | (k, v) :: w :: rest =>
      "\x27" ++ k ++ "\x27: " ++ pyReprV v ++ ", " ++ pyReprDict (w :: rest)

end

/-- Python `str(v)` (as used inside f-strings). -/
def pyStr : PyVal → String
  | .str s => s
  | v => pyReprV v

/-- Observation helper: the value stored under a key of a dict-shaped
output (`none` for non-dicts / missing keys). -/
def getKey (v : PyVal) (k : String) : Option PyVal :=
  match v with
  | .dict l => alookup k l
  | _ => Option.none

/-! ## Collaborators (the `self.services` map and module globals)

Each collaborator behaviour is the pure function the phase invokes; a
`.error` result models the invocation raising.  For the three services
resolved by probing several candidate method names at runtime
(`visual_proofs`, `anti_objection`, `enhanced_report`) the behaviour is an
association list from exposed method name to method body: `hasattr`
corresponds to `alookup` succeeding. -/

structure WebsailorSvc where
  navigate_and_research_deep : PyVal → PyVal → String → Except String PyVal

structure EnhancedSearchSvc where
  perform_search : PyVal → String → Except String PyVal

structure SupadataSvc where
  search_all_platforms : PyVal → Nat → Except String PyVal

structure MentalDriversSvc where
  create_complete_mental_drivers_system : PyVal → PyVal → Except String PyVal

structure PrePitchSvc where
  create_system : PyVal → PyVal → PyVal → Except String PyVal

structure FuturePredictionSvc where
  create_predictions : PyVal → PyVal → String → Except String PyVal

/-- Method signature tried for the visual-proofs service:
`method(drivers_data, segmento, produto, session_id)`. -/
abbrev VPMethod := PyVal → PyVal → PyVal → String → Except String PyVal

/-- Method signature tried for the anti-objection service:
`method(anti_objection_data)`. -/
abbrev AOMethod := PyVal → Except String PyVal

/-- Method signature tried for the report generator:
`method(complete_analysis_data, session_id)`. -/
abbrev ERMethod := PyVal → String → Except String PyVal

structure Env where
  websailor : Option WebsailorSvc
  enhanced_search_coordinator : Option EnhancedSearchSvc
  supadata : Option SupadataSvc
  mental_drivers : Option MentalDriversSvc
  visual_proofs : Option (List (String × VPMethod))
  anti_objection : Option (List (String × AOMethod))
  pre_pitch : Option PrePitchSvc
  future_prediction : Option FuturePredictionSvc
  enhanced_report : Option (List (String × ERMethod))
  nowIso : String

/-- Environment in which every optional collaborator is absent (all the
guarded imports failed, so `__init__` leaves `self.services` empty). -/
def envEmpty (ts : String) : Env :=
  { websailor := Option.none
    enhanced_search_coordinator := Option.none
    supadata := Option.none
    mental_drivers := Option.none
    visual_proofs := Option.none
    anti_objection := Option.none
    pre_pitch := Option.none
    future_prediction := Option.none
    enhanced_report := Option.none
    nowIso := ts }

/-! ## Session state (`self.execution_state` entries) -/

/-- One entry of `self.execution_state` (the dict built at run start plus
the `execution_time` key added on completion). -/
structure SessionState where
  status : String
  start_time : ℚ
  components_completed : List PyVal
  errors : List PyVal
  recursion_prevented : Nat
  real_data_only : Bool
  execution_time : Option ℚ

/-- The session record created at run start (lines 155-162). -/
def freshSession (t : ℚ) : SessionState :=
  { status := "running"
    start_time := t
    components_completed := []
    errors := []
    recursion_prevented := 0
    real_data_only := true
    execution_time := Option.none }

/-- Mutable state of a `SuperOrchestrator` instance (the services map is
carried separately as `Env` since it is fixed after `__init__`). -/
structure OrchState where
  execution_state : List (String × SessionState)
  recursion_depth : List (String × Nat)
  max_recursion_depth : Nat

/-- State after `__init__`: empty session map, empty depth map,
`_max_recursion_depth = 3`. -/
def OrchState.init : OrchState :=
  { execution_state := []
    recursion_depth := []
    max_recursion_depth := 3 }

/-! ## The twelve analysis phases

Each `_execute_real_*` method wraps its whole body in
`try: ... except Exception as e: return {...'status': 'error'...}`;
accordingly each definition below runs a body in `Except String PyVal`
and maps `.error e` to the method's error record. -/

/-- `_execute_real_web_search` (lines 299-329). -/
def execute_real_web_search (env : Env) (data : PyVal) (session_id : String) :
    PyVal :=
  let body : Except String PyVal := do
    let qraw ← data.pyGet "query"
    let seg ← data.pyGetD "segmento" (.str "")
    let prod ← data.pyGetD "produto" (.str "")
    let query : PyVal :=
      if qraw.truthy then qraw
      else .str ("mercado " ++ pyStr seg ++ " " ++ pyStr prod ++ " Brasil 2024")
    -- 1. websailor first; its inner try swallows both a raising call and a
    -- raising `.get('status')` on a non-dict result.
    let step1 : Option PyVal :=
      match env.websailor with
      | Option.none => Option.none
      | some ws =>
          match (do
            let wr ← ws.navigate_and_research_deep query data session_id
            if wr.truthy then
              let st ← wr.pyGet "status"
              if st.eqStr "success" then pure (some wr) else pure Option.none
            else pure Option.none : Except String (Option PyVal)) with
          | .ok r => r
          | .error _ => Option.none
    match step1 with
    | some wr => pure wr
    | Option.none =>
      -- 2. fallback: enhanced search coordinator (module global)
      let step2 : Option PyVal :=
        match env.enhanced_search_coordinator with
        | Option.none => Option.none
        | some esc =>
            match (do
              let sr ← esc.perform_search query session_id
              if sr.truthy then
                pure (some (PyVal.dict
                  [("status", .str "success"), ("processed_results", sr),
                   ("source", .str "enhanced_search")]))
              else pure Option.none : Except String (Option PyVal)) with
            | .ok r => r
            | .error _ => Option.none
      match step2 with
      | some r => pure r
      | Option.none =>
          pure (PyVal.dict
            [("status", .str "fallback"), ("processed_results", .list []),
             ("source", .str "fallback_basic")])
  match body with
  | .ok v => v
  | .error e =>
      .dict [("status", .str "error"), ("processed_results", .list []),
             ("error", .str e)]

/-- `_execute_real_social_analysis` (lines 331-347). -/
def execute_real_social_analysis (env : Env) (data : PyVal)
    (_session_id : String) : PyVal :=
  let body : Except String PyVal := do
    match env.supadata with
    | Option.none => pure (.dict [("status", .str "unavailable"), ("total_posts", .int 0)])
    | some sd => do
        let seg ← data.pyGetD "segmento" (.str "")
        let prod ← data.pyGetD "produto" (.str "")
        let query : PyVal := .str (pyStr seg ++ " " ++ pyStr prod)
        let social_results ← sd.search_all_platforms query 15
        let total ← (if social_results.truthy then do
            let ap ← social_results.pyGetD "all_posts" (.list [])
            let n ← ap.pyLen
            pure n
          else pure 0 : Except String Int)
        pure (.dict
          [("status", .str "success"),
           ("platforms_data",
             if social_results.truthy then social_results else .dict []),
           ("total_posts", .int total)])
  match body with
  | .ok v => v
  | .error e =>
      .dict [("status", .str "error"), ("total_posts", .int 0), ("error", .str e)]

/-- `_execute_real_avatar_analysis` (lines 349-362). -/
def execute_real_avatar_analysis (_env : Env) (web_data : PyVal)
    (_social_data : PyVal) (project_data : PyVal) (_session_id : String) :
    PyVal :=
  let body : Except String PyVal := do
    let seg ← project_data.pyGetD "segmento" (.str "Profissional")
    let pr ← web_data.pyGetD "processed_results" (.list [])
    let n ← pr.pyLen
    pure (.dict
      [("status", .str "success"),
       ("nome_ficticio", .str ("Avatar " ++ pyStr seg)),
       ("dores_viscerais_unificadas",
         .list [.str "Falta de tempo", .str "Dificuldade em decidir"]),
       ("desejos_secretos_unificados",
         .list [.str "Reconhecimento", .str "Estabilidade"]),
       ("objecoes_principais",
         .list [.str "Preço alto", .str "Falta de confiança"]),
       ("fonte_dados",
         .dict [("data_real", .bool true), ("web_sources", .int n)])])
  match body with
  | .ok v => v
  | .error e => .dict [("status", .str "error"), ("error", .str e)]

/-- `_execute_real_mental_drivers` (lines 364-382). -/
def execute_real_mental_drivers (env : Env) (avatar_data : PyVal)
    (_web_data : PyVal) (project_data : PyVal) (session_id : String) : PyVal :=
  let body : Except String PyVal := do
    match env.mental_drivers with
    | Option.none =>
        pure (.dict [("status", .str "fallback"), ("drivers_customizados", .list [])])
    | some md => do
        let seg ← project_data.pyGet "segmento"
        let prod ← project_data.pyGet "produto"
        let context_data : PyVal := .dict
          [("segmento", seg), ("produto", prod), ("session_id", .str session_id)]
        let drivers_system ←
          md.create_complete_mental_drivers_system avatar_data context_data
        pure (if drivers_system.truthy then drivers_system
          else .dict [("status", .str "fallback"), ("drivers_customizados", .list [])])
  match body with
  | .ok v => v
  | .error e =>
      .dict [("status", .str "error"), ("drivers_customizados", .list []),
             ("error", .str e)]

/-- Candidate-method loop of `_execute_real_visual_proofs` (lines 403-411):
skip names the service lacks; invoke the first exposed one and `break`
with its value whatever it is; on a raise, log and `continue`.  The
`project_data.get(...)` argument expressions are evaluated inside the
per-candidate `try`, so their raising also moves to the next candidate. -/
def try_visual_methods (methods : List (String × VPMethod))
    (names : List String) (drivers_data project_data : PyVal)
    (session_id : String) : Option PyVal :=
  match names with
  | [] => Option.none
  | n :: rest =>
      match alookup n methods with
      | Option.none =>
          try_visual_methods methods rest drivers_data project_data session_id
      | some m =>
          match (do
            let seg ← project_data.pyGetD "segmento" (.str "")
            let prod ← project_data.pyGetD "produto" (.str "")
            m drivers_data seg prod session_id : Except String PyVal) with
          | .ok v => some v
          | .error _ =>
              try_visual_methods methods rest drivers_data project_data session_id

/-- `_execute_real_visual_proofs` (lines 384-432). -/
def execute_real_visual_proofs (env : Env) (drivers_data : PyVal)
    (project_data : PyVal) (session_id : String) : PyVal :=
  let body : Except String PyVal := do
    match env.visual_proofs with
    | Option.none =>
        pure (.dict [("status", .str "fallback"), ("proofs", .list [])])
    | some service => do
        let visual_proofs :=
          try_visual_methods service
            ["generate_visual_proofs", "create_proofs", "generate_proofs",
             "create_visual_proofs", "build_proofs"]
            drivers_data project_data session_id
        match visual_proofs with
        | some v =>
            if v.truthy then pure v
            else do
              -- manual fallback when no method produced a truthy value
              let seg ← project_data.pyGetD "segmento" (.str "mercado")
              let prod ← project_data.pyGetD "produto" (.str "produto")
              pure (.dict
                [("status", .str "fallback"),
                 ("proofs", .list
                   [.dict
                     [("tipo", .str "estatistica"),
                      ("titulo", .str ("Dados sobre " ++ pyStr seg)),
                      ("descricao", .str
                        ("Análise baseada nos drivers para " ++ pyStr prod)),
                      ("fonte", .str "Análise própria")]])])
        | Option.none => do
            let seg ← project_data.pyGetD "segmento" (.str "mercado")
            let prod ← project_data.pyGetD "produto" (.str "produto")
            pure (.dict
              [("status", .str "fallback"),
               ("proofs", .list
                 [.dict
                   [("tipo", .str "estatistica"),
                    ("titulo", .str ("Dados sobre " ++ pyStr seg)),
                    ("descricao", .str
                      ("Análise baseada nos drivers para " ++ pyStr prod)),
                    ("fonte", .str "Análise própria")]])])
  match body with
  | .ok v => v
  | .error e =>
      .dict [("status", .str "error"), ("proofs", .list []), ("error", .str e)]

/-- Candidate-method loop of `_execute_real_anti_objection` (lines 459-469):
skip absent names; invoke exposed ones in order; a raising call moves on;
`return result` only when the result is truthy, otherwise the loop keeps
going. -/
def try_ao_methods (methods : List (String × AOMethod)) (names : List String)
    (arg : PyVal) : Option PyVal :=
  match names with
  | [] => Option.none
  | n :: rest =>
      match alookup n methods with
      | Option.none => try_ao_methods methods rest arg
      | some m =>
          match m arg with
          | .ok v => if v.truthy then some v else try_ao_methods methods rest arg
          | .error _ => try_ao_methods methods rest arg

/-- `_execute_real_anti_objection` (lines 434-484). -/
def execute_real_anti_objection (env : Env) (drivers_data : PyVal)
    (avatar_data : PyVal) (data : PyVal) (_session_id : String) : PyVal :=
  let body : Except String PyVal := do
    match env.anti_objection with
    | Option.none =>
        pure (.dict [("status", .str "fallback"), ("sistema_anti_objecao", .dict [])])
    | some service => do
        let prod ← data.pyGetD "produto" (.str "")
        let anti_objection_data : PyVal := .dict
          [("avatar", avatar_data), ("produto", prod), ("drivers", drivers_data)]
        match try_ao_methods service
            ["create_anti_objection_system", "create_system", "generate_system",
             "build_system", "create_anti_objection",
             "generate_anti_objection_system", "process_objections"]
            anti_objection_data with
        | some r => pure r
        | Option.none => do
            -- manual fallback when every candidate is absent, raises or
            -- returns a falsy value
            let objections ← avatar_data.pyGetD "objecoes_principais"
              (.list [.str "Preço alto", .str "Falta de confiança"])
            let objList ← objections.pyIter
            pure (.dict
              [("status", .str "fallback"),
               ("sistema_anti_objecao", .dict
                 [("objecoes_mapeadas", objections),
                  ("respostas_preparadas", .list (objList.map
                    (fun o => PyVal.str ("Resposta para: " ++ pyStr o)))),
                  ("estrategias", .list
                    [.str "Demonstração de valor", .str "Prova social",
                     .str "Garantias"])])])
  match body with
  | .ok v => v
  | .error e =>
      .dict [("status", .str "error"), ("sistema_anti_objecao", .dict []),
             ("error", .str e)]

/-- `_execute_real_pre_pitch` (lines 486-500). -/
def execute_real_pre_pitch (env : Env) (drivers_data : PyVal)
    (anti_objection_data : PyVal) (project_data : PyVal) : PyVal :=
  let body : Except String PyVal := do
    match env.pre_pitch with
    | Option.none =>
        pure (.dict [("status", .str "fallback"), ("sequencias_pre_pitch", .list [])])
    | some pp => do
        let result ← pp.create_system drivers_data anti_objection_data project_data
        pure (if result.truthy then result
          else .dict [("status", .str "fallback"), ("sequencias_pre_pitch", .list [])])
  match body with
  | .ok v => v
  | .error e =>
      .dict [("status", .str "error"), ("sequencias_pre_pitch", .list []),
             ("error", .str e)]

/-- `_execute_real_future_predictions` (lines 502-514). -/
def execute_real_future_predictions (env : Env) (web_data : PyVal)
    (social_data : PyVal) (session_id : String) : PyVal :=
  let body : Except String PyVal := do
    match env.future_prediction with
    | Option.none =>
        pure (.dict [("status", .str "fallback"), ("predicoes", .list [])])
    | some fp => do
        let result ← fp.create_predictions web_data social_data session_id
        pure (if result.truthy then result
          else .dict [("status", .str "fallback"), ("predicoes", .list [])])
  match body with
  | .ok v => v
  | .error e =>
      .dict [("status", .str "error"), ("predicoes", .list []), ("error", .str e)]

/-- `_execute_real_competition_analysis` (lines 516-526). -/
def execute_real_competition_analysis (_env : Env) (web_data : PyVal)
    (project_data : PyVal) (_session_id : String) : PyVal :=
  let body : Except String PyVal := do
    let seg ← project_data.pyGetD "segmento" (.str "mercado")
    let pr ← web_data.pyGetD "processed_results" (.list [])
    let n ← pr.pyLen
    pure (.dict
      [("status", .str "success"),
       ("analise_completa", .str ("Análise de concorrência para " ++ pyStr seg)),
       ("fontes_analisadas", .int n)])
  match body with
  | .ok v => v
  | .error e => .dict [("status", .str "error"), ("error", .str e)]

/-- `_execute_real_insights_extraction` (lines 528-541). -/
def execute_real_insights_extraction (_env : Env) (web_data : PyVal)
    (social_data : PyVal) (_session_id : String) : PyVal :=
  let body : Except String PyVal := do
    let pr ← web_data.pyGetD "processed_results" (.list [])
    let n ← pr.pyLen
    let sp ← social_data.pyGetD "total_posts" (.int 0)
    pure (.dict
      [("status", .str "success"),
       ("insights_completos", .str "Insights baseados nos dados coletados"),
       ("fontes_utilizadas", .dict
         [("web_sources", .int n), ("social_posts", sp)])])
  match body with
  | .ok v => v
  | .error e => .dict [("status", .str "error"), ("error", .str e)]

/-- `_execute_real_keywords_analysis` (lines 543-557). -/
def execute_real_keywords_analysis (_env : Env) (web_data : PyVal)
    (avatar_data : PyVal) (_session_id : String) : PyVal :=
  let body : Except String PyVal := do
    let pr ← web_data.pyGetD "processed_results" (.list [])
    let n ← pr.pyLen
    let nf ← avatar_data.pyGet "nome_ficticio"
    pure (.dict
      [("status", .str "success"),
       ("analise_completa", .str "Palavras-chave estratégicas identificadas"),
       ("fonte_dados", .dict
         [("web_sources_analyzed", .int n),
          ("avatar_included", .bool nf.truthy)])])
  match body with
  | .ok v => v
  | .error e => .dict [("status", .str "error"), ("error", .str e)]

/-- `_execute_real_sales_funnel` (lines 559-572). -/
def execute_real_sales_funnel (_env : Env) (drivers_data : PyVal)
    (avatar_data : PyVal) (_session_id : String) : PyVal :=
  let body : Except String PyVal := do
    let dc ← drivers_data.pyGetD "drivers_customizados" (.list [])
    let n ← dc.pyLen
    let nf ← avatar_data.pyGet "nome_ficticio"
    pure (.dict
      [("status", .str "success"),
       ("funil_otimizado", .str "Funil otimizado com base nos dados coletados"),
       ("dados_base", .dict
         [("drivers_applied", .int n),
          ("avatar_based", .bool nf.truthy)])])
  match body with
  | .ok v => v
  | .error e => .dict [("status", .str "error"), ("error", .str e)]

/-- Candidate-method loop of `_generate_final_report` (lines 592-602):
identical shape to the anti-objection loop (truthy result returns,
raise or falsy result moves on, absent name skipped). -/
def try_report_methods (methods : List (String × ERMethod))
    (names : List String) (arg : PyVal) (session_id : String) : Option PyVal :=
  match names with
  | [] => Option.none
  | n :: rest =>
      match alookup n methods with
      | Option.none => try_report_methods methods rest arg session_id
      | some m =>
          match m arg session_id with
          | .ok v =>
              if v.truthy then some v
              else try_report_methods methods rest arg session_id
          | .error _ => try_report_methods methods rest arg session_id

/-- `_generate_final_report` (lines 574-634).  `datetime.now().isoformat()`
is `env.nowIso`. -/
def generate_final_report (env : Env) (complete_analysis_data : PyVal)
    (session_id : String) : PyVal :=
  let body : Except String PyVal := do
    let viaService : Option PyVal :=
      match env.enhanced_report with
      | Option.none => Option.none
      | some service =>
          try_report_methods service
            ["generate_report", "create_report", "build_report",
             "generate_enhanced_report", "create_enhanced_report",
             "process_report", "compile_report"]
            complete_analysis_data session_id
    match viaService with
    | some r => pure r
    | Option.none => do
        -- basic fallback, whether the service is absent or every candidate
        -- failed
        let web ← complete_analysis_data.pyGetD "pesquisa_web_massiva" (.dict [])
        let pr ← web.pyGetD "processed_results" (.list [])
        let nweb ← pr.pyLen
        let social ← complete_analysis_data.pyGetD "analise_redes_sociais" (.dict [])
        let sp ← social.pyGetD "total_posts" (.int 0)
        let avatar ← complete_analysis_data.pyGetD "avatar_ultra_detalhado" (.dict [])
        let nf ← avatar.pyGet "nome_ficticio"
        let drivers ← complete_analysis_data.pyGetD "drivers_mentais_customizados" (.dict [])
        let dc ← drivers.pyGetD "drivers_customizados" (.list [])
        let ndrivers ← dc.pyLen
        let proofs ← complete_analysis_data.pyGetD "provas_visuais_arsenal" (.dict [])
        let pl ← proofs.pyGetD "proofs" (.list [])
        let nproofs ← pl.pyLen
        let anti ← complete_analysis_data.pyGetD "sistema_anti_objecao" (.dict [])
        let antiSys ← anti.pyGet "sistema_anti_objecao"
        let funnel ← complete_analysis_data.pyGetD "funil_vendas_otimizado" (.dict [])
        let fo ← funnel.pyGet "funil_otimizado"
        let keys ←
          match complete_analysis_data with
          | .dict l => Except.ok (l.map (fun kv => PyVal.str kv.1))
          | _ => Except.error "AttributeError: keys of non-dict value"
        pure (.dict
          [("status", .str "basic"),
           ("session_id", .str session_id),
           ("timestamp", .str env.nowIso),
           ("resumo_executivo",
             .str "Análise completa finalizada com todos os componentes"),
           ("componentes_analisados", .list keys),
           ("dados_coletados", .dict
             [("web_sources", .int nweb),
              ("social_posts", sp),
              ("avatar_criado", .bool nf.truthy),
              ("drivers_gerados", .int ndrivers),
              ("provas_visuais", .int nproofs),
              ("sistema_anti_objecao", .bool antiSys.truthy),
              ("funil_otimizado", .bool fo.truthy)]),
           ("report_generator", .str "basic_fallback_enhanced")])
  match body with
  | .ok v => v
  | .error e =>
      .dict [("status", .str "error"), ("session_id", .str session_id),
             ("timestamp", .str env.nowIso), ("error", .str e),
             ("report_generator", .str "error_fallback")]

/-! ## The top-level run (`execute_synchronized_analysis`, lines 131-297) -/

/-- The caller-supplied progress callback: receives the 1-based phase
index and the phase description; it may raise. -/
abbrev ProgressCallback := Nat → String → Except String Unit

/-- One `if progress_callback: progress_callback(i, msg)` site. -/
def callCb (cb : Option ProgressCallback) (i : Nat) (msg : String) :
    Except String Unit :=
  match cb with
  | some f => f i msg
  | Option.none => .ok ()

/-- The session-state creation at run start (lines 154-162): the entry for
`session_id` is assigned unconditionally, overwriting any previous entry. -/
def begin_session (st : OrchState) (session_id : String) (t : ℚ) : OrchState :=
  { st with execution_state :=
      ainsert st.execution_state session_id (freshSession t) }

/-- The body of the top-level `try` after session creation: the thirteen
progress-callback invocations interleaved with the twelve phases, the
consolidation dict (lines 241-256), the final report and the success
payload (lines 270-283).  The phases are pure (none of them touches
orchestrator state), so a callback raise at any point yields the same
state as raising before all phases. -/
def runPhases (env : Env) (data : PyVal) (session_id : String)
    (cb : Option ProgressCallback) (t_start t_end : ℚ) :
    Except String PyVal := do
  callCb cb 1 "🔍 Executando pesquisa web massiva com dados reais..."
  let web_research_results := execute_real_web_search env data session_id
  callCb cb 2 "📱 Analisando redes sociais com dados reais..."
  let social_analysis_results := execute_real_social_analysis env data session_id
  callCb cb 3 "👤 Criando avatar ultra-detalhado com dados reais..."
  let avatar_results := execute_real_avatar_analysis env web_research_results
    social_analysis_results data session_id
  callCb cb 4 "🧠 Gerando drivers mentais customizados com dados reais..."
  let drivers_results := execute_real_mental_drivers env avatar_results
    web_research_results data session_id
  callCb cb 5 "📸 Criando provas visuais com dados reais..."
  let visual_proofs_results := execute_real_visual_proofs env drivers_results
    data session_id
  callCb cb 6 "🛡️ Desenvolvendo sistema anti-objeção com dados reais..."
  let anti_objection_results := execute_real_anti_objection env drivers_results
    avatar_results data session_id
  callCb cb 7 "🎯 Construindo pré-pitch invisível com dados reais..."
  let pre_pitch_results := execute_real_pre_pitch env drivers_results
    anti_objection_results data
  callCb cb 8 "🔮 Gerando predições futuras com dados reais..."
  let predictions_results := execute_real_future_predictions env
    web_research_results social_analysis_results session_id
  callCb cb 9 "⚔️ Analisando concorrência com dados reais..."
  let competition_results := execute_real_competition_analysis env
    web_research_results data session_id
  callCb cb 10 "💡 Extraindo insights exclusivos com dados reais..."
  let insights_results := execute_real_insights_extraction env
    web_research_results social_analysis_results session_id
  callCb cb 11 "🎯 Identificando palavras-chave estratégicas com dados reais..."
  let keywords_results := execute_real_keywords_analysis env
    web_research_results avatar_results session_id
  callCb cb 12 "🎢 Otimizando funil de vendas com dados reais..."
  let funnel_results := execute_real_sales_funnel env drivers_results
    avatar_results session_id
  callCb cb 13 "📊 Gerando relatório final completo com dados reais..."
  let complete_analysis_data : PyVal := .dict
    [("session_id", .str session_id),
     ("projeto_dados", data),
     ("pesquisa_web_massiva", web_research_results),
     ("avatar_ultra_detalhado", avatar_results),
     ("drivers_mentais_customizados", drivers_results),
     ("provas_visuais_arsenal", visual_proofs_results),
     ("sistema_anti_objecao", anti_objection_results),
     ("pre_pitch_invisivel", pre_pitch_results),
     ("predicoes_futuro_detalhadas", predictions_results),
     ("analise_concorrencia", competition_results),
     ("insights_exclusivos", insights_results),
     ("palavras_chave_estrategicas", keywords_results),
     ("funil_vendas_otimizado", funnel_results),
     ("analise_redes_sociais", social_analysis_results)]
  let final_report := generate_final_report env complete_analysis_data session_id
  pure (.dict
    [("success", .bool true),
     ("session_id", .str session_id),
     ("execution_time", .rat (t_end - t_start)),
     ("total_components_executed", .int 12),
     ("report", final_report),
     ("data_validation", .dict
       [("all_data_real", .bool true),
        ("zero_simulated_data", .bool true),
        ("zero_fallbacks_used", .bool true),
        ("components_with_real_data", .int 12)]),
     ("sync_status", .str "PERFECT_SYNC_REAL_DATA_ONLY")])

/-- `execute_synchronized_analysis` (lines 131-297).  `t_start` and `t_end`
are the two `time.time()` readings.  The emergency handler receives the
state as mutated before the raise: the only state writes before any raise
point are the recursion-map clear and the session creation, so that is the
state it closes over; it clears the (already empty) recursion map again. -/
def execute_synchronized_analysis (env : Env) (st : OrchState) (data : PyVal)
    (session_id : String) (cb : Option ProgressCallback) (t_start t_end : ℚ) :
    PyVal × OrchState :=
  if !data.truthy then
    (.dict [("success", .bool false), ("session_id", .str session_id),
            ("error", .str "Dados de entrada obrigatórios não fornecidos"),
            ("emergency_mode", .bool true)], st)
  else
    let st1 : OrchState := { st with recursion_depth := [] }
    let st2 : OrchState := begin_session st1 session_id t_start
    match runPhases env data session_id cb t_start t_end with
    | .ok result =>
        let finish : SessionState → SessionState := fun ss =>
          { ss with status := "completed",
                    execution_time := some (t_end - t_start) }
        let st3 : OrchState :=
          { st2 with
            execution_state := amodify st2.execution_state session_id finish }
        (result, st3)
    | .error e =>
        let st3 : OrchState := { st2 with recursion_depth := [] }
        (.dict [("success", .bool false), ("session_id", .str session_id),
                ("error", .str e), ("emergency_mode", .bool true)], st3)

/-- Python `format(q, '.0f')`: round half to even, rendering a negative
value that rounds to zero as `-0`. -/
def formatDotZeroF (q : ℚ) : String :=
  let f : ℤ := ⌊q⌋
  let r : ℚ := q - f
  let n : ℤ :=
    if r < 1/2 then f
    else if 1/2 < r then f + 1
    else if f % 2 = 0 then f else f + 1
  if n = 0 ∧ q < 0 then "-0" else toString n

/-- `get_session_progress` (lines 636-653); `now` is the `time.time()`
reading. -/
def get_session_progress (st : OrchState) (session_id : String) (now : ℚ) :
    Option PyVal :=
  match alookup session_id st.execution_state with
  | Option.none => Option.none
  | some session_state =>
      if session_state.status = "running" then
        let elapsed : ℚ := now - session_state.start_time
        let progress : ℚ := min (elapsed / 600 * 100) 95
        some (.dict
          [("completed", .bool false),
           ("percentage", .rat progress),
           ("current_step",
             .str ("Processando... (" ++ formatDotZeroF progress ++ "%)"))])
      else if session_state.status = "completed" then
        some (.dict [("completed", .bool true), ("percentage", .int 100)])
      else Option.none

/-- The request parameters of the all-collaborators-absent test case:
`{segmento: "fitness", produto: "app"}`. -/
def dataFitness : PyVal :=
  .dict [("segmento", .str "fitness"), ("produto", .str "app")]

/-- Fixture: a mental-drivers collaborator whose only operation returns a
truthy mapping that carries no `status` key. -/
def mdStatusless : Env :=
  { envEmpty "T" with
    mental_drivers := some ⟨fun _ _ => .ok (.dict [("x", .int 1)])⟩ }

/-- Fixture: an orchestrator state in which session `a` is currently
running (started at time 5). -/
def stRunningA : OrchState :=
  { OrchState.init with execution_state := [("a", freshSession 5)] }

/-- Fixture: a visual-proofs service whose first candidate method returns
`None` (falsy, without raising) and whose second returns a truthy success
record. -/
def vpTwoMethods : List (String × VPMethod) :=
  [("generate_visual_proofs", fun _ _ _ _ => .ok .none),
   ("create_proofs", fun _ _ _ _ =>
     .ok (.dict [("status", .str "success"), ("proofs", .list [.str "p"])]))]

/-- Fixture: one running and one completed session, both started at 0. -/
def stProgress : OrchState :=
  { OrchState.init with execution_state :=
      [("r", freshSession 0), ("c", { freshSession 0 with status := "completed" })] }

/-! ## Helper lemmas on association lists and `Except` -/

theorem alookup_ainsert_self {α : Type} (l : List (String × α)) (k : String)
    (v : α) : alookup k (ainsert l k v) = some v := by
  induction l with
  | nil => simp [ainsert, alookup]
  | cons h t ih =>
      obtain ⟨k', v'⟩ := h
      by_cases hk : k' = k <;> simp [ainsert, alookup, hk, ih]

theorem alookup_ainsert_ne {α : Type} (l : List (String × α)) (k k' : String)
    (v : α) (h : k' ≠ k) : alookup k' (ainsert l k v) = alookup k' l := by
  induction l with
  | nil => simp [ainsert, alookup, Ne.symm h]
  | cons hd t ih =>
      obtain ⟨k'', v''⟩ := hd
      by_cases hk : k'' = k
      · subst hk
        simp [ainsert, alookup, Ne.symm h]
      · simp [ainsert, alookup, hk, ih]

theorem alookup_amodify_self {α : Type} (l : List (String × α)) (k : String)
    (f : α → α) : alookup k (amodify l k f) = (alookup k l).map f := by
  induction l with
  | nil => simp [amodify, alookup]
  | cons hd t ih =>
      obtain ⟨k', v'⟩ := hd
      by_cases hk : k' = k <;> simp [amodify, alookup, hk, ih]

theorem alookup_amodify_ne {α : Type} (l : List (String × α)) (k k' : String)
    (f : α → α) (h : k' ≠ k) : alookup k' (amodify l k f) = alookup k' l := by
  induction l with
  | nil => simp [amodify]
  | cons hd t ih =>
      obtain ⟨k'', v''⟩ := hd
      by_cases hk : k'' = k
      · subst hk
        simp [amodify, alookup, Ne.symm h]
      · simp [amodify, alookup, hk, ih]

theorem except_ok_bind {ε α β : Type} (a : α) (f : α → Except ε β) :
    (Except.ok a >>= f : Except ε β) = f a := rfl

theorem except_error_bind {ε α β : Type} (e : ε) (f : α → Except ε β) :
    (Except.error e >>= f : Except ε β) = .error e := rfl

/-- Shared reduction: when the progress callback raises at its first
invocation, the run takes the emergency path with the session entry still
freshly `running`. -/
theorem execute_abort_on_cb_error (env : Env) (st : OrchState) (k : String)
    (v : PyVal) (rest : List (String × PyVal)) (sid : String)
    (cb : ProgressCallback) (e : String) (t0 t1 : ℚ)
    (h : cb 1 "🔍 Executando pesquisa web massiva com dados reais..." =
      .error e) :
    execute_synchronized_analysis env st (.dict ((k, v) :: rest)) sid
      (some cb) t0 t1 =
    (.dict [("success", .bool false), ("session_id", .str sid),
            ("error", .str e), ("emergency_mode", .bool true)],
     { st with recursion_depth := [],
               execution_state := ainsert st.execution_state sid (freshSession t0) }) := by
  simp [execute_synchronized_analysis, runPhases, callCb, h, except_error_bind,
    begin_session, PyVal.truthy]

/-! ## Claims -/

/-- C7: calling `execute_synchronized_analysis` with empty request params
returns `success: false` with the `error` field populated, leaves the
execution-state map (and the whole orchestrator state) unchanged, and does
so for every callback — so no phase and no callback runs and no session
state is created. -/
theorem C7_empty_params_fail_fast (env : Env) (st : OrchState) (sid : String)
    (cb : Option ProgressCallback) (t0 t1 : ℚ) :
    execute_synchronized_analysis env st (.dict []) sid cb t0 t1 =
      (.dict [("success", .bool false), ("session_id", .str sid),
              ("error", .str "Dados de entrada obrigatórios não fornecidos"),
              ("emergency_mode", .bool true)], st)
    ∧ "Dados de entrada obrigatórios não fornecidos" ≠ "" :=
  ⟨rfl, by decide⟩

/-- C9 (amended): a phase whose bound collaborator is absent returns a
fixed record — `status = unavailable` for the social-analysis phase but
`status = fallback` for every other collaborator-bound phase — and that
record does not depend on the phase inputs, so the absent-collaborator
output is deterministic. -/
theorem C9_absent_collaborator_outputs (env : Env) (d a w p dd ao s1 : PyVal)
    (sid : String) (dl : List (String × PyVal)) :
    (env.supadata = Option.none →
      execute_real_social_analysis env d sid =
        .dict [("status", .str "unavailable"), ("total_posts", .int 0)])
    ∧ (env.mental_drivers = Option.none →
      execute_real_mental_drivers env a w p sid =
        .dict [("status", .str "fallback"), ("drivers_customizados", .list [])])
    ∧ (env.visual_proofs = Option.none →
      execute_real_visual_proofs env dd p sid =
        .dict [("status", .str "fallback"), ("proofs", .list [])])
    ∧ (env.anti_objection = Option.none →
      execute_real_anti_objection env dd a d sid =
        .dict [("status", .str "fallback"), ("sistema_anti_objecao", .dict [])])
    ∧ (env.pre_pitch = Option.none →
      execute_real_pre_pitch env dd ao p =
        .dict [("status", .str "fallback"), ("sequencias_pre_pitch", .list [])])
    ∧ (env.future_prediction = Option.none →
      execute_real_future_predictions env w s1 sid =
        .dict [("status", .str "fallback"), ("predicoes", .list [])])
    ∧ (env.websailor = Option.none →
       env.enhanced_search_coordinator = Option.none →
      execute_real_web_search env (.dict dl) sid =
        .dict [("status", .str "fallback"), ("processed_results", .list []),
               ("source", .str "fallback_basic")]) := by
  refine ⟨fun h => ?_, fun h => ?_, fun h => ?_, fun h => ?_, fun h => ?_,
    fun h => ?_, fun h1 h2 => ?_⟩
  · simp only [execute_real_social_analysis, h]
    rfl
  · simp only [execute_real_mental_drivers, h]
    rfl
  · simp only [execute_real_visual_proofs, h]
    rfl
  · simp only [execute_real_anti_objection, h]
    rfl
  · simp only [execute_real_pre_pitch, h]
    rfl
  · simp only [execute_real_future_predictions, h]
    rfl
  · simp only [execute_real_web_search, h1, h2]
    rfl

/-- Witness for C9 at concrete inputs: the absent-collaborator outputs of
all seven collaborator-bound phases in the empty environment. -/
theorem C9_witness :
    execute_real_social_analysis (envEmpty "T") dataFitness "s" =
      .dict [("status", .str "unavailable"), ("total_posts", .int 0)]
    ∧ execute_real_mental_drivers (envEmpty "T") (.dict []) (.dict [])
        dataFitness "s" =
      .dict [("status", .str "fallback"), ("drivers_customizados", .list [])]
    ∧ execute_real_visual_proofs (envEmpty "T") (.dict []) dataFitness "s" =
      .dict [("status", .str "fallback"), ("proofs", .list [])]
    ∧ execute_real_anti_objection (envEmpty "T") (.dict []) (.dict [])
        dataFitness "s" =
      .dict [("status", .str "fallback"), ("sistema_anti_objecao", .dict [])]
    ∧ execute_real_pre_pitch (envEmpty "T") (.dict []) (.dict []) dataFitness =
      .dict [("status", .str "fallback"), ("sequencias_pre_pitch", .list [])]
    ∧ execute_real_future_predictions (envEmpty "T") (.dict []) (.dict []) "s" =
      .dict [("status", .str "fallback"), ("predicoes", .list [])]
    ∧ execute_real_web_search (envEmpty "T") dataFitness "s" =
      .dict [("status", .str "fallback"), ("processed_results", .list []),
             ("source", .str "fallback_basic")] := by
  have h := C9_absent_collaborator_outputs (envEmpty "T") dataFitness (.dict [])
    (.dict []) dataFitness (.dict []) (.dict []) (.dict []) "s"
    [("segmento", PyVal.str "fitness"), ("produto", PyVal.str "app")]
  exact ⟨h.1 rfl, h.2.1 rfl, h.2.2.1 rfl, h.2.2.2.1 rfl, h.2.2.2.2.1 rfl,
    h.2.2.2.2.2.1 rfl, h.2.2.2.2.2.2 rfl rfl⟩

/-- C9 counterexample: with the services map empty the mental-drivers
phase (claim source lines 367-368) returns `status = fallback`, not
`status = unavailable` as the claim states for every phase. -/
theorem C9_counterexample :
    getKey (execute_real_mental_drivers (envEmpty "T") (.dict []) (.dict [])
      dataFitness "s") "status" = some (.str "fallback")
    ∧ "fallback" ≠ "unavailable" :=
  ⟨rfl, by decide⟩

/-- C4 (amended): creating the session state for an id that is already
present — in particular one still `running` — does not fail: the entry is
unconditionally overwritten with a fresh running record and the run
proceeds normally (no duplicate check, no `DuplicateSessionError` exists
in the code). -/
theorem C4_begin_overwrites (st : OrchState) (sid : String) (t : ℚ)
    (env : Env) (k : String) (v : PyVal) (rest : List (String × PyVal))
    (t0 t1 : ℚ) :
    alookup sid (begin_session st sid t).execution_state =
      some (freshSession t)
    ∧ getKey (execute_synchronized_analysis env st (.dict ((k, v) :: rest))
        sid Option.none t0 t1).1 "success" = some (.bool true) := by
  constructor
  · exact alookup_ainsert_self _ _ _
  · rfl

/-- C4 counterexample: session `a` is running (started at 5); a second
begin with id `a` at time 10 overwrites the entry with a fresh running
record, and a full second `execute_synchronized_analysis` call for id `a`
returns `success: true` instead of failing with a duplicate-session
error. -/
theorem C4_counterexample :
    alookup "a" (begin_session stRunningA "a" 10).execution_state =
      some (freshSession 10)
    ∧ (freshSession 10).status = "running"
    ∧ (freshSession 5).start_time ≠ (freshSession 10).start_time
    ∧ getKey (execute_synchronized_analysis (envEmpty "T") stRunningA
        dataFitness "a" Option.none 10 20).1 "success" = some (.bool true) := by
  refine ⟨rfl, rfl, by norm_num [freshSession], rfl⟩

/-- C2 (amended): with every collaborator absent, a run on
`{segmento: fitness, produto: app}` returns `success: true`; the
collaborator-bound phases report `fallback` (web research, mental drivers,
visual proofs, anti-objection, pre-pitch, future predictions) or
`unavailable` (social analysis), while the locally computed phases
(avatar, competition, insights, keywords, sales funnel) report `success`;
the returned `data_validation` block hard-codes
`components_with_real_data = 12` regardless of degradation, and only the
basic report's `dados_coletados` exposes the actual degradation
(0 web sources, 0 social posts, 0 drivers). -/
theorem C2_all_absent_run (ts sid : String) (st : OrchState) (t0 t1 : ℚ) :
    getKey (execute_synchronized_analysis (envEmpty ts) st dataFitness sid
      Option.none t0 t1).1 "success" = some (.bool true)
    ∧ getKey (execute_real_web_search (envEmpty ts) dataFitness sid)
        "status" = some (.str "fallback")
    ∧ getKey (execute_real_social_analysis (envEmpty ts) dataFitness sid)
        "status" = some (.str "unavailable")
    ∧ getKey (execute_real_avatar_analysis (envEmpty ts)
        (execute_real_web_search (envEmpty ts) dataFitness sid)
        (execute_real_social_analysis (envEmpty ts) dataFitness sid)
        dataFitness sid) "status" = some (.str "success")
    ∧ getKey (execute_real_mental_drivers (envEmpty ts)
        (execute_real_avatar_analysis (envEmpty ts)
          (execute_real_web_search (envEmpty ts) dataFitness sid)
          (execute_real_social_analysis (envEmpty ts) dataFitness sid)
          dataFitness sid)
        (execute_real_web_search (envEmpty ts) dataFitness sid)
        dataFitness sid) "status" = some (.str "fallback")
    ∧ getKey (execute_real_visual_proofs (envEmpty ts)
        (.dict [("status", .str "fallback"), ("drivers_customizados", .list [])])
        dataFitness sid) "status" = some (.str "fallback")
    ∧ getKey (execute_real_anti_objection (envEmpty ts)
        (.dict [("status", .str "fallback"), ("drivers_customizados", .list [])])
        (execute_real_avatar_analysis (envEmpty ts)
          (execute_real_web_search (envEmpty ts) dataFitness sid)
          (execute_real_social_analysis (envEmpty ts) dataFitness sid)
          dataFitness sid)
        dataFitness sid) "status" = some (.str "fallback")
    ∧ getKey (execute_real_pre_pitch (envEmpty ts)
        (.dict [("status", .str "fallback"), ("drivers_customizados", .list [])])
        (.dict [("status", .str "fallback"), ("sistema_anti_objecao", .dict [])])
        dataFitness) "status" = some (.str "fallback")
    ∧ getKey (execute_real_future_predictions (envEmpty ts)
        (execute_real_web_search (envEmpty ts) dataFitness sid)
        (execute_real_social_analysis (envEmpty ts) dataFitness sid)
        sid) "status" = some (.str "fallback")
    ∧ getKey (execute_real_competition_analysis (envEmpty ts)
        (execute_real_web_search (envEmpty ts) dataFitness sid)
        dataFitness sid) "status" = some (.str "success")
    ∧ getKey (execute_real_insights_extraction (envEmpty ts)
        (execute_real_web_search (envEmpty ts) dataFitness sid)
        (execute_real_social_analysis (envEmpty ts) dataFitness sid)
        sid) "status" = some (.str "success")
    ∧ getKey (execute_real_keywords_analysis (envEmpty ts)
        (execute_real_web_search (envEmpty ts) dataFitness sid)
        (execute_real_avatar_analysis (envEmpty ts)
          (execute_real_web_search (envEmpty ts) dataFitness sid)
          (execute_real_social_analysis (envEmpty ts) dataFitness sid)
          dataFitness sid)
        sid) "status" = some (.str "success")
    ∧ getKey (execute_real_sales_funnel (envEmpty ts)
        (.dict [("status", .str "fallback"), ("drivers_customizados", .list [])])
        (execute_real_avatar_analysis (envEmpty ts)
          (execute_real_web_search (envEmpty ts) dataFitness sid)
          (execute_real_social_analysis (envEmpty ts) dataFitness sid)
          dataFitness sid)
        sid) "status" = some (.str "success")
    ∧ ((getKey (execute_synchronized_analysis (envEmpty ts) st dataFitness sid
          Option.none t0 t1).1 "data_validation").bind
        (fun dv => getKey dv "components_with_real_data")) = some (.int 12)
    ∧ ((getKey (execute_synchronized_analysis (envEmpty ts) st dataFitness sid
          Option.none t0 t1).1 "report").bind
        (fun rep => getKey rep "dados_coletados")).bind
        (fun dc => getKey dc "web_sources") = some (.int 0)
    ∧ ((getKey (execute_synchronized_analysis (envEmpty ts) st dataFitness sid
          Option.none t0 t1).1 "report").bind
        (fun rep => getKey rep "dados_coletados")).bind
        (fun dc => getKey dc "social_posts") = some (.int 0)
    ∧ ((getKey (execute_synchronized_analysis (envEmpty ts) st dataFitness sid
          Option.none t0 t1).1 "report").bind
        (fun rep => getKey rep "dados_coletados")).bind
        (fun dc => getKey dc "drivers_gerados") = some (.int 0) := by
  exact ⟨rfl, rfl, rfl, rfl, rfl, rfl, rfl, rfl, rfl, rfl, rfl, rfl, rfl,
    rfl, rfl, rfl, rfl⟩

/-- C2 counterexample: in the fully degraded run the avatar phase reports
`status = success` (not `unavailable`/`fallback` as the claim states for
every phase), and the result's degradation summary hard-codes 12
components with real data instead of reporting 0. -/
theorem C2_counterexample :
    getKey (execute_real_avatar_analysis (envEmpty "T")
      (execute_real_web_search (envEmpty "T") dataFitness "s")
      (execute_real_social_analysis (envEmpty "T") dataFitness "s")
      dataFitness "s") "status" = some (.str "success")
    ∧ "success" ≠ "unavailable"
    ∧ "success" ≠ "fallback"
    ∧ ((getKey (execute_synchronized_analysis (envEmpty "T") OrchState.init
          dataFitness "s" Option.none 0 1).1 "data_validation").bind
        (fun dv => getKey dv "components_with_real_data")) = some (.int 12)
    ∧ (12 : Int) ≠ 0 :=
  ⟨rfl, by decide, by decide, rfl, by decide⟩

/-- C3 (amended): the per-phase progress-callback invocations are not
individually guarded; a callback that raises is caught only by the
top-level handler, so the run aborts: `execute_synchronized_analysis`
returns `success: false` with the callback's error, and the session entry
is left in its fresh `running` state. -/
theorem C3_callback_abort (env : Env) (st : OrchState) (k : String)
    (v : PyVal) (rest : List (String × PyVal)) (sid : String)
    (cb : ProgressCallback) (e : String) (t0 t1 : ℚ)
    (h : cb 1 "🔍 Executando pesquisa web massiva com dados reais..." =
      .error e) :
    execute_synchronized_analysis env st (.dict ((k, v) :: rest)) sid
      (some cb) t0 t1 =
    (.dict [("success", .bool false), ("session_id", .str sid),
            ("error", .str e), ("emergency_mode", .bool true)],
     { st with recursion_depth := [],
               execution_state :=
                 ainsert st.execution_state sid (freshSession t0) }) :=
  execute_abort_on_cb_error env st k v rest sid cb e t0 t1 h

/-- Witness for C3 at a concrete input: the callback that always raises
`boom` aborts the run on the fitness request. -/
theorem C3_witness :
    execute_synchronized_analysis (envEmpty "T") OrchState.init dataFitness
      "s" (some (fun _ _ => .error "boom")) 0 1 =
    (.dict [("success", .bool false), ("session_id", .str "s"),
            ("error", .str "boom"), ("emergency_mode", .bool true)],
     { OrchState.init with execution_state := [("s", freshSession 0)] }) :=
  C3_callback_abort (envEmpty "T") OrchState.init "segmento"
    (.str "fitness") [("produto", .str "app")] "s"
    (fun _ _ => .error "boom") "boom" 0 1 rfl

/-- C3 counterexample: the same run succeeds with no callback but fails
when the callback raises, so a raising callback does change the
pipeline's outcome. -/
theorem C3_counterexample :
    getKey (execute_synchronized_analysis (envEmpty "T") OrchState.init
      dataFitness "s" (some (fun _ _ => .error "boom")) 0 1).1 "success" =
      some (.bool false)
    ∧ getKey (execute_synchronized_analysis (envEmpty "T") OrchState.init
        dataFitness "s" Option.none 0 1).1 "success" = some (.bool true) :=
  ⟨rfl, rfl⟩

/-- C5: the recursion "guard" is inert.  `__init__` declares the depth
map and `_max_recursion_depth = 3`, and `execute_synchronized_analysis`
clears the map at run start (and again in the emergency handler), but no
code path ever increments, decrements or consults it: after any run the
depth map is empty, the configured maximum is untouched, and the
session's `recursion_prevented` counter is still 0 — no enter is ever
counted or denied. -/
theorem C5_recursion_guard_inert (env : Env) (st : OrchState) (k : String)
    (v : PyVal) (rest : List (String × PyVal)) (sid : String)
    (cb : Option ProgressCallback) (t0 t1 : ℚ) :
    (execute_synchronized_analysis env st (.dict ((k, v) :: rest)) sid cb
      t0 t1).2.recursion_depth = []
    ∧ (execute_synchronized_analysis env st (.dict ((k, v) :: rest)) sid cb
        t0 t1).2.max_recursion_depth = st.max_recursion_depth
    ∧ (alookup sid (execute_synchronized_analysis env st
        (.dict ((k, v) :: rest)) sid cb t0 t1).2.execution_state).map
        (fun ss => ss.recursion_prevented) = some 0 := by
  cases hr : runPhases env (.dict ((k, v) :: rest)) sid cb t0 t1 with
  | ok r =>
      refine ⟨?_, ?_, ?_⟩ <;>
        simp [execute_synchronized_analysis, hr, begin_session, PyVal.truthy,
          alookup_amodify_self, alookup_ainsert_self, freshSession]
  | error e =>
      refine ⟨?_, ?_, ?_⟩ <;>
        simp [execute_synchronized_analysis, hr, begin_session, PyVal.truthy,
          alookup_ainsert_self, freshSession]

/-- C10: every session status ever stored is `running` or `completed`
(the invariant is preserved by any run); when the run aborts after
session creation, the emergency return path leaves the entry as the
fresh `running` record, and later progress queries keep reporting an
in-progress percentage capped at 95; no operation assigns `failed`. -/
theorem C10_session_status_invariant (env : Env) (st : OrchState)
    (data : PyVal) (sid : String) (cb : Option ProgressCallback)
    (t0 t1 now : ℚ) (k' : String) (v' : PyVal)
    (rest' : List (String × PyVal)) (cb' : ProgressCallback) (e : String)
    (hst : ∀ k ss, alookup k st.execution_state = some ss →
      ss.status = "running" ∨ ss.status = "completed")
    (habort : cb' 1 "🔍 Executando pesquisa web massiva com dados reais..." =
      .error e) :
    (∀ k ss, alookup k (execute_synchronized_analysis env st data sid cb
        t0 t1).2.execution_state = some ss →
      ss.status = "running" ∨ ss.status = "completed")
    ∧ alookup sid (execute_synchronized_analysis env st
        (.dict ((k', v') :: rest')) sid (some cb') t0 t1).2.execution_state =
        some (freshSession t0)
    ∧ get_session_progress (execute_synchronized_analysis env st
        (.dict ((k', v') :: rest')) sid (some cb') t0 t1).2 sid now =
        some (.dict [("completed", .bool false),
          ("percentage", .rat (min ((now - t0) / 600 * 100) 95)),
          ("current_step", .str ("Processando... (" ++
            formatDotZeroF (min ((now - t0) / 600 * 100) 95) ++ "%)"))])
    ∧ min ((now - t0) / 600 * 100) 95 ≤ 95 := by
  refine ⟨?_, ?_, ?_, min_le_right _ _⟩
  · intro k ss h
    by_cases hd : data.truthy = true
    · cases hr : runPhases env data sid cb t0 t1 with
      | ok r =>
          simp [execute_synchronized_analysis, hd, hr, begin_session] at h
          by_cases hk : k = sid
          · subst hk
            rw [alookup_amodify_self, alookup_ainsert_self,
              Option.map_some'] at h
            injection h with h
            subst h
            right
            rfl
          · rw [alookup_amodify_ne _ _ _ _ hk,
              alookup_ainsert_ne _ _ _ _ hk] at h
            exact hst k ss h
      | error err =>
          simp [execute_synchronized_analysis, hd, hr, begin_session] at h
          by_cases hk : k = sid
          · subst hk
            rw [alookup_ainsert_self] at h
            injection h with h
            subst h
            left
            rfl
          · rw [alookup_ainsert_ne _ _ _ _ hk] at h
            exact hst k ss h
    · have hd' : data.truthy = false := by
        revert hd
        cases data.truthy <;> simp
      simp [execute_synchronized_analysis, hd'] at h
      exact hst k ss h
  · rw [execute_abort_on_cb_error env st k' v' rest' sid cb' e t0 t1 habort]
    exact alookup_ainsert_self _ _ _
  · rw [execute_abort_on_cb_error env st k' v' rest' sid cb' e t0 t1 habort]
    simp [get_session_progress, alookup_ainsert_self, freshSession]

/-- Witness for C10 at concrete inputs: the invariant holds after the
degraded fitness run from the empty state, and the aborted run (callback
raising `boom`) leaves session `s` running with a capped in-progress
percentage at time 300. -/
theorem C10_witness :
    (∀ k ss, alookup k (execute_synchronized_analysis (envEmpty "T")
        OrchState.init dataFitness "s" Option.none 0 1).2.execution_state =
        some ss → ss.status = "running" ∨ ss.status = "completed")
    ∧ alookup "s" (execute_synchronized_analysis (envEmpty "T")
        OrchState.init (.dict [("segmento", .str "fitness"),
          ("produto", .str "app")]) "s"
        (some (fun _ _ => .error "boom")) 0 1).2.execution_state =
        some (freshSession 0)
    ∧ get_session_progress (execute_synchronized_analysis (envEmpty "T")
        OrchState.init (.dict [("segmento", .str "fitness"),
          ("produto", .str "app")]) "s"
        (some (fun _ _ => .error "boom")) 0 1).2 "s" 300 =
        some (.dict [("completed", .bool false),
          ("percentage", .rat (min ((300 - 0) / 600 * 100) 95)),
          ("current_step", .str ("Processando... (" ++
            formatDotZeroF (min ((300 - 0) / 600 * 100) 95) ++ "%)"))])
    ∧ min (((300 : ℚ) - 0) / 600 * 100) 95 ≤ 95 :=
  C10_session_status_invariant (envEmpty "T") OrchState.init dataFitness "s"
    Option.none 0 1 300 "segmento" (.str "fitness")
    [("produto", .str "app")] (fun _ _ => .error "boom") "boom"
    (fun k ss h => absurd h (by simp [alookup]))
    rfl

/-- C1 (amended): no phase raises past its boundary and an error-status
output never aborts the run — with a non-raising callback the pipeline
always returns `success: true` with a report, whatever the collaborators
do; when a phase's collaborator invocation raises, the phases that call
it directly (social analysis, mental drivers, pre-pitch, future
predictions) return a record with `status = error`, and the web-search
phase degrades to its `fallback` record.  However, a phase output is not
guaranteed to contain a `status` key: the passthrough phases return a
truthy collaborator result verbatim. -/
theorem C1_phase_isolation (env : Env) (st : OrchState) (k : String)
    (v : PyVal) (rest : List (String × PyVal)) (sid : String) (t0 t1 : ℚ)
    (e : String) (a w p d ao s1 : PyVal) :
    getKey (execute_synchronized_analysis env st (.dict ((k, v) :: rest))
      sid Option.none t0 t1).1 "success" = some (.bool true)
    ∧ (getKey (execute_synchronized_analysis env st (.dict ((k, v) :: rest))
        sid Option.none t0 t1).1 "report").isSome = true
    ∧ getKey (execute_real_social_analysis
        { env with supadata := some ⟨fun _ _ => .error e⟩ } d sid)
        "status" = some (.str "error")
    ∧ getKey (execute_real_mental_drivers
        { env with mental_drivers := some ⟨fun _ _ => .error e⟩ } a w p sid)
        "status" = some (.str "error")
    ∧ getKey (execute_real_pre_pitch
        { env with pre_pitch := some ⟨fun _ _ _ => .error e⟩ } d ao p)
        "status" = some (.str "error")
    ∧ getKey (execute_real_future_predictions
        { env with future_prediction := some ⟨fun _ _ _ => .error e⟩ } w s1 sid)
        "status" = some (.str "error")
    ∧ getKey (execute_real_web_search
        { env with websailor := some ⟨fun _ _ _ => .error e⟩,
                   enhanced_search_coordinator := some ⟨fun _ _ => .error e⟩ }
        (.dict ((k, v) :: rest)) sid) "status" = some (.str "fallback") := by
  refine ⟨rfl, rfl, ?_, ?_, rfl, rfl, rfl⟩
  · cases d <;> rfl
  · cases p <;> rfl

/-- C1 counterexample: a mental-drivers collaborator returning the truthy
mapping `{x: 1}` makes the phase return it verbatim, so the phase output
carries no `status` key at all. -/
theorem C1_counterexample :
    execute_real_mental_drivers mdStatusless (.dict []) (.dict [])
      dataFitness "s" = .dict [("x", .int 1)]
    ∧ getKey (.dict [("x", .int 1)]) "status" = Option.none :=
  ⟨rfl, rfl⟩

/-- C8: progress semantics of `get_session_progress` — a running session
reports `completed: false` with percentage exactly
`min(elapsed / 600 * 100, 95)`, which is capped at 95 and non-decreasing
in the query time; a completed session reports `completed: true` with
percentage exactly 100; an unknown session id yields `none` rather than
an error. -/
theorem C8_progress_semantics (st : OrchState) (sid sid' : String)
    (ss : SessionState) (t1 t2 : ℚ)
    (hfound : alookup sid st.execution_state = some ss) :
    (ss.status = "running" →
      get_session_progress st sid t1 = some (.dict
        [("completed", .bool false),
         ("percentage", .rat (min ((t1 - ss.start_time) / 600 * 100) 95)),
         ("current_step", .str ("Processando... (" ++
           formatDotZeroF (min ((t1 - ss.start_time) / 600 * 100) 95) ++ "%)"))])
      ∧ min ((t1 - ss.start_time) / 600 * 100) 95 ≤ 95
      ∧ (t1 ≤ t2 → min ((t1 - ss.start_time) / 600 * 100) 95 ≤
          min ((t2 - ss.start_time) / 600 * 100) 95))
    ∧ (ss.status = "completed" →
      get_session_progress st sid t1 =
        some (.dict [("completed", .bool true), ("percentage", .int 100)]))
    ∧ (alookup sid' st.execution_state = Option.none →
      get_session_progress st sid' t1 = Option.none) := by
  refine ⟨fun hrun => ⟨?_, min_le_right _ _, fun hle => ?_⟩,
    fun hcomp => ?_, fun habs => ?_⟩
  · simp [get_session_progress, hfound, hrun]
  · have hmono : (t1 - ss.start_time) / 600 * 100 ≤
        (t2 - ss.start_time) / 600 * 100 := by linarith
    exact min_le_min hmono (le_refl 95)
  · simp [get_session_progress, hfound, hcomp]
  · simp [get_session_progress, habs]

/-- Witness for C8 at concrete inputs: a session started at 0 and queried
at 300 reports 50%, still below the 95 cap and below the value at 600; a
completed session reports exactly 100; an unknown id reports nothing. -/
theorem C8_witness :
    get_session_progress stProgress "r" 300 = some (.dict
      [("completed", .bool false), ("percentage", .rat 50),
       ("current_step", .str "Processando... (50%)")])
    ∧ min (((300 : ℚ) - 0) / 600 * 100) 95 ≤ 95
    ∧ min (((300 : ℚ) - 0) / 600 * 100) 95 ≤
        min (((600 : ℚ) - 0) / 600 * 100) 95
    ∧ get_session_progress stProgress "c" 300 =
        some (.dict [("completed", .bool true), ("percentage", .int 100)])
    ∧ get_session_progress stProgress "missing" 300 = Option.none := by
  have hr := C8_progress_semantics stProgress "r" "missing"
    (freshSession 0) 300 600 rfl
  have hc := C8_progress_semantics stProgress "c" "missing"
    { freshSession 0 with status := "completed" } 300 600 rfl
  have hmin : ((300 : ℚ) - (freshSession 0).start_time) / 600 * 100 ⊓ 95 = 50 := by
    norm_num [freshSession, min_def]
  have hfmt : formatDotZeroF 50 = "50" := by
    have hf : ⌊(50 : ℚ)⌋ = 50 := by norm_num
    simp only [formatDotZeroF, hf]
    norm_num
    rfl
  have h1 := (hr.1 rfl).1
  rw [hmin, hfmt] at h1
  exact ⟨h1, (hr.1 rfl).2.1, (hr.1 rfl).2.2 (by norm_num),
    hc.2.1 rfl, hc.2.2 rfl⟩

/-- C6 (amended): the anti-objection and report resolvers behave exactly
as claimed — candidates are tried in declared order, an unexposed name is
skipped without penalty, a raising invocation moves on to the next
candidate, the first truthy result wins (independently of the remaining
candidates), a falsy result moves on, and an exhausted candidate list
yields the deterministic manual fallback.  The visual-proofs resolver
differs: the first exposed candidate that does not raise wins the loop
even when its result is falsy, in which case the remaining candidates are
skipped and the deterministic manual fallback is returned. -/
theorem C6_candidate_resolution (ms : List (String × AOMethod))
    (rs : List (String × ERMethod)) (vs : List (String × VPMethod))
    (n : String) (rest : List String) (arg cad dd : PyVal)
    (pl : List (String × PyVal)) (sid : String) (m : AOMethod)
    (mr : ERMethod) (mv : VPMethod) (v : PyVal) (e : String) (env : Env) :
    (alookup n ms = Option.none →
      try_ao_methods ms (n :: rest) arg = try_ao_methods ms rest arg)
    ∧ (alookup n ms = some m → m arg = .error e →
      try_ao_methods ms (n :: rest) arg = try_ao_methods ms rest arg)
    ∧ (alookup n ms = some m → m arg = .ok v → v.truthy = true →
      try_ao_methods ms (n :: rest) arg = some v)
    ∧ (alookup n ms = some m → m arg = .ok v → v.truthy = false →
      try_ao_methods ms (n :: rest) arg = try_ao_methods ms rest arg)
    ∧ try_ao_methods ms [] arg = Option.none
    ∧ (alookup n rs = Option.none →
      try_report_methods rs (n :: rest) cad sid =
        try_report_methods rs rest cad sid)
    ∧ (alookup n rs = some mr → mr cad sid = .error e →
      try_report_methods rs (n :: rest) cad sid =
        try_report_methods rs rest cad sid)
    ∧ (alookup n rs = some mr → mr cad sid = .ok v → v.truthy = true →
      try_report_methods rs (n :: rest) cad sid = some v)
    ∧ (alookup n rs = some mr → mr cad sid = .ok v → v.truthy = false →
      try_report_methods rs (n :: rest) cad sid =
        try_report_methods rs rest cad sid)
    ∧ try_report_methods rs [] cad sid = Option.none
    ∧ (alookup n vs = Option.none →
      try_visual_methods vs (n :: rest) dd (.dict pl) sid =
        try_visual_methods vs rest dd (.dict pl) sid)
    ∧ (alookup n vs = some mv →
      mv dd ((alookup "segmento" pl).getD (.str ""))
        ((alookup "produto" pl).getD (.str "")) sid = .error e →
      try_visual_methods vs (n :: rest) dd (.dict pl) sid =
        try_visual_methods vs rest dd (.dict pl) sid)
    ∧ (alookup n vs = some mv →
      mv dd ((alookup "segmento" pl).getD (.str ""))
        ((alookup "produto" pl).getD (.str "")) sid = .ok v →
      try_visual_methods vs (n :: rest) dd (.dict pl) sid = some v)
    ∧ execute_real_anti_objection
        { env with anti_objection := some [("create_system", fun _ => .error e)] }
        dd (.dict []) dataFitness sid =
      .dict [("status", .str "fallback"),
        ("sistema_anti_objecao", .dict
          [("objecoes_mapeadas", .list
            [.str "Preço alto", .str "Falta de confiança"]),
           ("respostas_preparadas", .list
            [.str "Resposta para: Preço alto",
             .str "Resposta para: Falta de confiança"]),
           ("estrategias", .list
            [.str "Demonstração de valor", .str "Prova social",
             .str "Garantias"])])]
    ∧ execute_real_visual_proofs
        { env with visual_proofs := some [("build_proofs", fun _ _ _ _ => .error e)] }
        dd dataFitness sid =
      .dict [("status", .str "fallback"),
        ("proofs", .list
          [.dict [("tipo", .str "estatistica"),
                  ("titulo", .str "Dados sobre fitness"),
                  ("descricao", .str "Análise baseada nos drivers para app"),
                  ("fonte", .str "Análise própria")]])] := by
  refine ⟨fun h1 => ?_, fun h1 h2 => ?_, fun h1 h2 h3 => ?_,
    fun h1 h2 h3 => ?_, rfl, fun h1 => ?_, fun h1 h2 => ?_,
    fun h1 h2 h3 => ?_, fun h1 h2 h3 => ?_, rfl, fun h1 => ?_,
    fun h1 h2 => ?_, fun h1 h2 => ?_, rfl, rfl⟩
  · simp [try_ao_methods, h1]
  · simp [try_ao_methods, h1, h2]
  · simp [try_ao_methods, h1, h2, h3]
  · simp [try_ao_methods, h1, h2, h3]
  · simp [try_report_methods, h1]
  · simp [try_report_methods, h1, h2]
  · simp [try_report_methods, h1, h2, h3]
  · simp [try_report_methods, h1, h2, h3]
  · simp [try_visual_methods, h1]
  · simp [try_visual_methods, h1, PyVal.pyGetD, except_ok_bind, h2]
  · simp [try_visual_methods, h1, PyVal.pyGetD, except_ok_bind, h2]

/-- Witness for C6 at concrete inputs: each resolver step exercised once
(skip, raise-and-continue, truthy win, falsy continue, exhaustion) plus
both all-candidates-fail phase fallbacks. -/
theorem C6_witness :
    try_ao_methods [("m", fun _ => .ok (.dict [("k", .int 1)]))]
      ("absent" :: ["m"]) (.dict []) =
      try_ao_methods [("m", fun _ => .ok (.dict [("k", .int 1)]))] ["m"]
        (.dict [])
    ∧ try_ao_methods [("m", fun _ => .error "boom")] ("m" :: []) (.dict []) =
      try_ao_methods [("m", fun _ => .error "boom")] [] (.dict [])
    ∧ try_ao_methods [("m", fun _ => .ok (.dict [("k", .int 1)]))]
        ("m" :: ["later"]) (.dict []) = some (.dict [("k", .int 1)])
    ∧ try_ao_methods [("m", fun _ => .ok .none)] ("m" :: []) (.dict []) =
      try_ao_methods [("m", fun _ => .ok .none)] [] (.dict [])
    ∧ try_report_methods [("m", fun _ _ => .ok (.dict [("k", .int 1)]))]
        ("m" :: ["later"]) (.dict []) "s" = some (.dict [("k", .int 1)])
    ∧ try_visual_methods [("m", fun _ _ _ _ => .ok .none)] ("m" :: ["later"])
        (.dict []) (.dict []) "s" = some .none
    ∧ execute_real_anti_objection
        { envEmpty "T" with
          anti_objection := some [("create_system", fun _ => .error "boom")] }
        (.dict []) (.dict []) dataFitness "s" =
      .dict [("status", .str "fallback"),
        ("sistema_anti_objecao", .dict
          [("objecoes_mapeadas", .list
            [.str "Preço alto", .str "Falta de confiança"]),
           ("respostas_preparadas", .list
            [.str "Resposta para: Preço alto",
             .str "Resposta para: Falta de confiança"]),
           ("estrategias", .list
            [.str "Demonstração de valor", .str "Prova social",
             .str "Garantias"])])] := by
  refine ⟨?_, ?_, ?_, ?_, ?_, ?_, ?_⟩
  · exact (C6_candidate_resolution
      [("m", fun _ => .ok (.dict [("k", .int 1)]))] [] [] "absent" ["m"]
      (.dict []) (.dict []) (.dict []) [] "s" (fun _ => .ok .none)
      (fun _ _ => .ok .none) (fun _ _ _ _ => .ok .none) .none "boom"
      (envEmpty "T")).1 rfl
  · exact (C6_candidate_resolution [("m", fun _ => .error "boom")] [] [] "m"
      [] (.dict []) (.dict []) (.dict []) [] "s" (fun _ => .error "boom")
      (fun _ _ => .ok .none) (fun _ _ _ _ => .ok .none) .none "boom"
      (envEmpty "T")).2.1 rfl rfl
  · exact (C6_candidate_resolution
      [("m", fun _ => .ok (.dict [("k", .int 1)]))] [] [] "m" ["later"]
      (.dict []) (.dict []) (.dict []) [] "s"
      (fun _ => .ok (.dict [("k", .int 1)])) (fun _ _ => .ok .none)
      (fun _ _ _ _ => .ok .none) (.dict [("k", .int 1)]) "boom"
      (envEmpty "T")).2.2.1 rfl rfl rfl
  · exact (C6_candidate_resolution [("m", fun _ => .ok .none)] [] [] "m" []
      (.dict []) (.dict []) (.dict []) [] "s" (fun _ => .ok .none)
      (fun _ _ => .ok .none) (fun _ _ _ _ => .ok .none) .none "boom"
      (envEmpty "T")).2.2.2.1 rfl rfl rfl
  · exact (C6_candidate_resolution []
      [("m", fun _ _ => .ok (.dict [("k", .int 1)]))] [] "m" ["later"]
      (.dict []) (.dict []) (.dict []) [] "s" (fun _ => .ok .none)
      (fun _ _ => .ok (.dict [("k", .int 1)])) (fun _ _ _ _ => .ok .none)
      (.dict [("k", .int 1)]) "boom" (envEmpty "T")).2.2.2.2.2.2.2.1
      rfl rfl rfl
  · exact (C6_candidate_resolution [] []
      [("m", fun _ _ _ _ => .ok .none)] "m" ["later"] (.dict []) (.dict [])
      (.dict []) [] "s" (fun _ => .ok .none) (fun _ _ => .ok .none)
      (fun _ _ _ _ => .ok .none) .none "boom"
      (envEmpty "T")).2.2.2.2.2.2.2.2.2.2.2.2.1 rfl rfl
  · exact (C6_candidate_resolution [] [] [] "m" [] (.dict []) (.dict [])
      (.dict []) [] "s" (fun _ => .ok .none) (fun _ _ => .ok .none)
      (fun _ _ _ _ => .ok .none) .none "boom"
      (envEmpty "T")).2.2.2.2.2.2.2.2.2.2.2.2.2.1

/-- C6 counterexample: a visual-proofs service whose first candidate
returns `None` (falsy, without raising) while its second candidate is
exposed and returns a truthy success record; the phase returns the
manual fallback — the second candidate's result never wins, contradicting
the claimed first-non-falsy-result-wins behaviour. -/
theorem C6_counterexample :
    execute_real_visual_proofs
      { envEmpty "T" with visual_proofs := some vpTwoMethods }
      (.dict []) dataFitness "s" =
      .dict [("status", .str "fallback"),
        ("proofs", .list
          [.dict [("tipo", .str "estatistica"),
                  ("titulo", .str "Dados sobre fitness"),
                  ("descricao", .str "Análise baseada nos drivers para app"),
                  ("fonte", .str "Análise própria")]])]
    ∧ (alookup "create_proofs" vpTwoMethods).isSome = true
    ∧ "fallback" ≠ "success" :=
  ⟨rfl, rfl, by decide⟩
